import Mathlib

/-
  Verification of the AIBot Discord assistant (AIBot/bot.py, AIBot/memory.py,
  AIBot/models.py, AIBot/util.py) against its natural-language specification.

  The Python code is shallowly embedded: datetimes become integer seconds,
  Discord messages become explicit records, the mutable bot object becomes an
  explicit state record threaded through the operations, and model/LLM calls
  become oracle function parameters.
-/

namespace AIBot

/-! ## String helpers

Python string predicates (`startswith`, `in`, `strip`, slicing) are embedded
as codepoint-list operations on `String.data`, matching Python's
codepoint-based semantics. -/

/-- Whitespace characters removed by Python `str.strip` (the ASCII ones that
occur in chat text). -/
def isSpaceChar (c : Char) : Bool :=
  c = ' ' || c = '\n' || c = '\t' || c = '\r'

/-- `charsStartWith p s`: the char list `s` starts with the char list `p`
(Python `s.startswith(p)`). -/
def charsStartWith : List Char → List Char → Bool
  | [], _ => true
  | _ :: _, [] => false
  | a :: as, b :: bs => a = b && charsStartWith as bs

/-- `charsContain sub s`: `sub` occurs as a contiguous sublist of `s`
(Python `sub in s`). -/
def charsContain (sub : List Char) : List Char → Bool
  | [] => sub.isEmpty
  | c :: rest => charsStartWith sub (c :: rest) || charsContain sub rest

/-- Python `s.startswith(p)` on `String`. -/
def strStartsWith (s p : String) : Bool :=
  charsStartWith p.data s.data

/-- Python `sub in s` (substring containment) on `String`. -/
def strContains (s sub : String) : Bool :=
  charsContain sub.data s.data

/-- Python `s.strip()`: drop whitespace from both ends. -/
def strStrip (s : String) : String :=
  String.mk (((s.data.dropWhile isSpaceChar).reverse.dropWhile isSpaceChar).reverse)

/-- Python `s[n:]`: drop the first `n` codepoints. -/
def strDrop (s : String) (n : Nat) : String :=
  String.mk (s.data.drop n)

/-- Python `len(s)` in codepoints. -/
def strLen (s : String) : Nat :=
  s.data.length

/-! ## Data model -/

/-- A Discord message as the embedded code observes it: id, author id,
channel id, text content, number of embeds, creation time (seconds). -/
structure DMsg where
  mid : Nat
  authorId : Nat
  channelId : Nat
  content : String
  embeds : Nat
  time : Int
deriving DecidableEq

/-- An entry of a channel's rolling message history (`ModelMessage` values in
the source): `sysMsg`/`userMsg` from `util.sys_msg`/`util.user_msg`, and
`agentMsg` for entries taken from an agent run's `new_messages()`. -/
inductive HMsg where
  | sysMsg (content : String)
  | userMsg (content : String)
  | agentMsg (content : String)
deriving DecidableEq

/-- `AIBot.is_valid_message` (bot.py:181-207): rejects non-chat commands,
`BOT:` announcements, code blocks, URLs, messages with embeds, and messages
whose stripped content is shorter than 5 characters. -/
def isValidMessage (m : DMsg) : Bool :=
  if strStartsWith m.content "!" && !(strStartsWith m.content "!chat") then false
  else if strStartsWith m.content "BOT:" then false
  else if strContains m.content "```" then false
  else if strContains m.content "http://" || strContains m.content "https://" then false
  else if m.embeds > 0 then false
  else if strLen (strStrip m.content) < 5 then false
  else true

/-- `util.is_bot_announcement`: content starts with `BOT: `. -/
def isBotAnnouncement (m : DMsg) : Bool :=
  strStartsWith m.content "BOT: "

/-- The content transformation in `AIBot.get_message_history` (bot.py:232-238):
strip the `!chat` command keyword, then strip whitespace. -/
def chatStrip (c : String) : String :=
  if strStartsWith c "!chat" then strStrip (strDrop c 5) else strStrip c

/-- The mutable state of the bot plus its `MemoryHandler`, as one record:
`message_history`, `last_message_was` (absent key modelled as `none`,
standing for the `datetime.min` default), the channels' own message
timelines (what `channel.history(...)` would return, newest first),
`watched_channels`, the handler's `seen_messages`, the bot object's distinct
`seen_messages` list (bot.py:49), and the bot user id. -/
structure BotState where
  messageHistory : Nat → List HMsg
  lastMessageWas : Nat → Option Int
  timelines : Nat → List DMsg
  watchedChannels : List Nat
  seen : List Nat
  botSeen : List Nat
  botId : Nat

/-- Replace the history list of one channel. -/
def setHistory (s : BotState) (ch : Nat) (h : List HMsg) : BotState :=
  { s with messageHistory := fun c => if c = ch then h else s.messageHistory c }

@[simp] theorem setHistory_at (s : BotState) (ch : Nat) (h : List HMsg) :
    (setHistory s ch h).messageHistory ch = h := by
  simp [setHistory]

@[simp] theorem setHistory_timelines (s : BotState) (ch : Nat) (h : List HMsg) :
    (setHistory s ch h).timelines = s.timelines := rfl

@[simp] theorem setHistory_lastMessageWas (s : BotState) (ch : Nat) (h : List HMsg) :
    (setHistory s ch h).lastMessageWas = s.lastMessageWas := rfl

/-! ## Conversation session operations (bot.py) -/

/-- `AIBot.active_conversation` (bot.py:56-65): true when the channel's
history is non-empty and the last recorded activity is less than 2 minutes
(120 seconds) old.  An absent `last_message_was` entry defaults to
`datetime.min`, which always fails the 2-minute test, hence `none => false`. -/
def activeConversation (now : Int) (ch : Nat) (s : BotState) : Bool :=
  if s.messageHistory ch = [] then false
  else
    match s.lastMessageWas ch with
    | none => false
    | some t => decide (now - t < 120)

/-- The passive-append tail of `AIBot.on_message` (bot.py:166-168): a message
that reached the end of the handler is appended (as `sys_msg`) to its
channel's history exactly when the conversation is active and the message is
valid; no trimming is performed. -/
def onMessagePassive (now : Int) (m : DMsg) (s : BotState) : BotState :=
  if activeConversation now m.channelId s && isValidMessage m then
    setHistory s m.channelId (s.messageHistory m.channelId ++ [HMsg.sysMsg m.content])
  else s

/-- The staleness test of `check_message_history` (bot.py:215-217):
`datetime.now() - timedelta(minutes=5) > last_message`, with an absent
entry defaulting to `datetime.min` (always stale). -/
def staleAt (now : Int) (ch : Nat) (s : BotState) : Bool :=
  match s.lastMessageWas ch with
  | none => true
  | some t => decide (now - 300 > t)

/-- `AIBot.check_message_history` (bot.py:210-218): reset the channel's
history to empty when more than 5 minutes (300 seconds) have elapsed since
the last recorded activity. -/
def checkMessageHistory (now : Int) (ch : Nat) (s : BotState) : BotState :=
  if staleAt now ch s then setHistory s ch [] else s

/-- The channel fetch inside `AIBot.get_message_history` (bot.py:228-241):
take the channel's 5 most recent messages, keep the valid ones, strip the
`!chat` keyword and whitespace, and wrap each as `sys_msg`. -/
def fetchRecent (s : BotState) (ch : Nat) : List HMsg :=
  (((s.timelines ch).take 5).filter isValidMessage).map
    (fun m => HMsg.sysMsg (chatStrip m.content))

/-- `AIBot.get_message_history` (bot.py:220-246): when the stored history is
empty, seed it from the channel fetch and return it; otherwise return the
stored history unchanged. -/
def getMessageHistory (s : BotState) (ch : Nat) : List HMsg × BotState :=
  if s.messageHistory ch = [] then
    let msgs := fetchRecent s ch
    (msgs, setHistory s ch msgs)
  else (s.messageHistory ch, s)

/-- The context-assembly front of `AIBot.ask_agent` (bot.py:264-267): run
`check_message_history`, record the activity time, then obtain the history
supplied to the model call via `get_message_history`. -/
def askAgentContext (now : Int) (ch : Nat) (s : BotState) : List HMsg × BotState :=
  let s1 := checkMessageHistory now ch s
  let s2 := { s1 with lastMessageWas := fun c => if c = ch then some now else s1.lastMessageWas c }
  getMessageHistory s2 ch

/-- The session-history effects of `AIBot.on_message` for a message that is
not a request to the bot — no mention, not a command, no URL — reaching the
random-event branch test (bot.py:136-168).  The 5% draw
`random.random() < 0.05` is the `randomFires` parameter.  When the draw
fires: an unwatched channel returns early (bot.py:140-142, skipping even
the passive tail); in a watched channel whose stored history is falsy,
`get_message_history` is invoked (bot.py:145-146), seeding the session
history from the channel's last 5 valid messages.  The branch's
`true_false_agent.run` and `_agent_run` invocations are modelled as
completing without follow-up questions, in which case they do not modify
the session history (the branch never calls `add_message_to_chat_history`).
Afterwards — and on a non-firing draw directly — the passive-append tail
(bot.py:166-168) runs. -/
def onMessageNonRequest (now : Int) (randomFires : Bool) (m : DMsg) (s : BotState) : BotState :=
  if randomFires then
    if s.watchedChannels.contains m.channelId then
      let s1 := if s.messageHistory m.channelId = [] then (getMessageHistory s m.channelId).2 else s
      onMessagePassive now m s1
    else s
  else onMessagePassive now m s

/-- `AIBot.add_message_to_chat_history` (bot.py:248-255): extend the
channel's history with the run's new messages, then keep only the last 10
entries when the length exceeds 10. -/
def addMessageToChatHistory (ch : Nat) (newMsgs : List HMsg) (s : BotState) : BotState :=
  let h := s.messageHistory ch ++ newMsgs
  let h2 := if h ≠ [] ∧ h.length > 10 then h.drop (h.length - 10) else h
  setHistory s ch h2

/-! ## Memory scanner (memory.py) -/

/-- A parsed conversation record handed to the fact-extraction model
(`MemoryHandler.check_facts`, memory.py:61-65). -/
structure PRec where
  role : String
  content : String
  userId : String
deriving DecidableEq

/-- `models.Fact`: topic plus content. -/
structure Fact where
  topic : String
  content : String
deriving DecidableEq

/-- `models.FactResponse`: a list of extracted facts. -/
structure FactResponse where
  facts : List Fact
deriving DecidableEq

/-- The eligibility filters of `MemoryHandler.check_watched_channels`
(memory.py:172-183) other than the seen-set test: inside the 5-minute
lookback window, not a command, not a bot announcement, no embeds. -/
def eligibleExceptSeen (now : Int) (m : DMsg) : Bool :=
  decide (m.time > now - 300)
    && !(strStartsWith m.content "!")
    && !(isBotAnnouncement m)
    && m.embeds == 0

/-- Full eligibility filter of `check_watched_channels`: the above plus
`m.id not in self.seen_messages`. -/
def eligibleMsg (now : Int) (seen : List Nat) (m : DMsg) : Bool :=
  eligibleExceptSeen now m && !(seen.contains m.mid)

/-- `MemoryHandler.check_watched_channels` (memory.py:163-185): one entry per
watched channel, holding that channel's eligible messages.  The handler's
own `seen_messages` list (`s.seen`) is the set consulted. -/
def checkWatchedChannels (now : Int) (s : BotState) : List (Nat × List DMsg) :=
  s.watchedChannels.map (fun c => (c, (s.timelines c).filter (eligibleMsg now s.seen)))

/-- The parsing step of `MemoryHandler.check_facts` (memory.py:52-65): skip
messages with embeds, assign the `assistant` role to the bot's own messages
and `user` otherwise. -/
def toRecords (botId : Nat) (msgs : List DMsg) : List PRec :=
  (msgs.filter (fun m => m.embeds == 0)).map
    (fun m => ⟨if m.authorId = botId then "assistant" else "user", m.content, toString m.authorId⟩)

/-- `MemoryHandler.check_facts` (memory.py:42-78).  The fact-extraction model
is the oracle parameter; `none` models the call raising an exception (the
`except` branch logs and continues).  Returns the per-channel batches sent
to the model (one model invocation per batch) and the successful outputs. -/
def checkFacts (oracle : Nat → List PRec → Option FactResponse) (botId : Nat)
    (msgs : List (Nat × List DMsg)) : List (Nat × List PRec) × List (Nat × FactResponse) :=
  let parsed := msgs.map (fun p => (p.1, toRecords botId p.2))
  (parsed, parsed.filterMap (fun p => (oracle p.1 p.2).map (fun r => (p.1, r))))

/-- Concatenate the per-channel message lists of a scan result (the generator
expression at memory.py:135). -/
def allMsgs : List (Nat × List DMsg) → List DMsg
  | [] => []
  | p :: rest => p.2 ++ allMsgs rest

/-- All candidate facts produced by a pass, across channels. -/
def passCandidates : List (Nat × FactResponse) → List Fact
  | [] => []
  | p :: rest => p.2.facts ++ passCandidates rest

/-- Number of per-channel `memory.add` mutation calls a pass performs:
channels whose extracted fact list is empty are skipped
(`if not facts.facts: continue`, memory.py:97-99). -/
def passMutationCalls (outs : List (Nat × FactResponse)) : Nat :=
  (outs.filter (fun p => !p.2.facts.isEmpty)).length

/-- `MemoryHandler.add_memories_task` (memory.py:123-142), up to the
extraction stage: scan the watched channels; `if not watched_msgs: return`
is a dict-emptiness test, so it short-circuits only when there are no
watched channels at all; otherwise every scanned message id is appended to
the handler's seen list and `check_facts` runs one model call per channel.
Returns the new state, the per-channel batches sent to the extraction
model, and the successful extraction outputs. -/
def addMemoriesTask (now : Int) (oracle : Nat → List PRec → Option FactResponse)
    (s : BotState) : BotState × List (Nat × List PRec) × List (Nat × FactResponse) :=
  let w := checkWatchedChannels now s
  if w.isEmpty then (s, [], [])
  else
    let s1 := { s with seen := s.seen ++ (allMsgs w).map DMsg.mid }
    let r := checkFacts oracle s.botId w
    (s1, r.1, r.2)

/-- `seen_messages_timer` (bot.py:77-81): every 30 minutes it sets
`bot.seen_messages = []`.  That attribute is `AIBot.seen_messages`
(bot.py:49, field `botSeen`), not the `MemoryHandler.seen_messages` list
(memory.py:24, field `seen`) that the scanner reads and extends. -/
def seenMessagesTimerTick (s : BotState) : BotState :=
  { s with botSeen := [] }

/-! ## Request loop (bot.py `_agent_run`, `ask_agent`) -/

/-- The two model-output variants `_agent_run` distinguishes
(bot.py:314-331): a `FollowUpQuestion` (models.py:67-69, field `question`)
or a final answer carrying a `response` field (models.py:63-65). -/
inductive AgentOutput where
  | basic (response : String)
  | followUp (question : String)
deriving DecidableEq

/-- One completed `agent.run` invocation: its output and the first element of
`agent_run.new_messages()` (the entry appended to history on a follow-up
reply, bot.py:324). -/
structure AgentRun where
  output : AgentOutput
  firstNewMessage : HMsg
deriving DecidableEq

/-- Attribute access `output.response` (bot.py:284): defined on the final
answer variant; a `FollowUpQuestion` has only a `question` field, so the
access raises `AttributeError`, modelled as `none`. -/
def getResponseField : AgentOutput → Option String
  | .basic r => some r
  | .followUp _ => none

/-- The `while True` loop of `AIBot._agent_run` (bot.py:295-332), driven by a
script of completed runs and a stream of reply outcomes (`some r` = the
requester replied `r` within the timeout, `none` = `asyncio.TimeoutError`).
On a follow-up with a reply, the run's first new message and the user reply
are appended to the channel history and the loop continues; on a timeout
the run itself is returned with the history unchanged; on a final answer
the run is returned.  An exhausted script yields `none` (the real loop
would issue a further model call). -/
def agentRunLoop : List AgentRun → List (Option String) → List HMsg →
    Option (AgentRun × List HMsg)
  | [], _, _ => none
  | r :: rest, replies, hist =>
    match r.output with
    | .basic _ => some (r, hist)
    | .followUp _ =>
      match replies with
      | [] => none
      | none :: _ => some (r, hist)
      | some reply :: rrest =>
        agentRunLoop rest rrest (hist ++ [r.firstNewMessage, HMsg.userMsg reply])

/-- The `check` predicate of the follow-up wait
(bot.py:322): `lambda m: m.author == deps.context.author`. -/
def followUpCheck (requesterId : Nat) (m : DMsg) : Bool :=
  m.authorId == requesterId

/-- `self.wait_for('message', ..., check=...)`: the first event of the
message stream satisfying the check predicate. -/
def waitForMessage (requesterId : Nat) (events : List DMsg) : Option DMsg :=
  events.find? (followUpCheck requesterId)

/-- The delivery tail of `AIBot.ask_agent` (bot.py:280-284): a `None` run
result sends a fixed apology; otherwise the text sent is
`result.output.response`, which exists only on the final-answer variant. -/
def askAgentDeliver (runResult : Option AgentRun) : Option String :=
  match runResult with
  | none => some "could not process your request"
  | some r => getResponseField r.output

/-! ## Consolidation pass (CustomAsyncMemory.add)

`memory.py` calls `self.memory.add(...)` on a `CustomAsyncMemory` imported
from `AIBot.asyncmemory`; that module is not among the provided sources, so
the consolidation pass is modelled from the specification. -/

/-- A persisted fact in the vector index. -/
structure StoredFact where
  fid : Nat
  text : String
deriving DecidableEq

/-- The vector index: stored facts plus the next fresh identifier. -/
structure MemIndex where
  entries : List StoredFact
  nextId : Nat
deriving DecidableEq

/-- A reconciliation decision: ADD / UPDATE / DELETE / NONE, with UPDATE,
DELETE and NONE referencing a per-pass temporary id. -/
inductive Decision where
  | add (text : String)
  | update (tempId : Nat) (text : String)
  | delete (tempId : Nat)
  | keep (tempId : Nat)
deriving DecidableEq

/-- An observable event of a consolidation pass: the single planner model
invocation (with the temp-id-labeled existing facts and the candidate
texts it receives) or one index mutation. -/
inductive MemEvent where
  | plannerCall (existing : List (Nat × String)) (candidates : List String)
  | mutAdd (text : String)
  | mutUpdate (fid : Nat) (text : String)
  | mutDelete (fid : Nat)
deriving DecidableEq

/-- An event is an index mutation (not the planner invocation). -/
def MemEvent.isMutation : MemEvent → Bool
  | .plannerCall _ _ => false
  | .mutAdd _ => true
  | .mutUpdate _ _ => true
  | .mutDelete _ => true

/-- Modelled from the spec: the similarity-resolution stage of
`CustomAsyncMemory.add` (AIBot/asyncmemory.py, absent from the sources).
Per spec section 4.2, each candidate's neighborhood is at most 5 existing
facts (`nbr` is the opaque embed-and-search capability, returning fact ids
ranked by distance); the neighborhoods are deduplicated by fact id and the
pass-wide table assigns one temporary integer id per distinct fact. -/
def tempTableOf (nbr : String → List Nat) (cands : List String) : List (Nat × Nat) :=
  ((cands.flatMap (fun c => (nbr c).take 5)).dedup).enum

/-- Modelled from the spec: the temp-id-labeled existing facts handed to the
reconciliation planner (spec section 4.3) — each table entry paired with
the current text of the referenced stored fact. -/
def labeledExisting (idx : MemIndex) (tbl : List (Nat × Nat)) : List (Nat × String) :=
  tbl.filterMap (fun p => (idx.entries.find? (fun e => e.fid == p.2)).map (fun e => (p.1, e.text)))

/-- Resolve a temporary id through the pass table; unknown ids resolve to
`none` and their decisions are dropped (spec section 4.3). -/
def resolveTemp (tbl : List (Nat × Nat)) (tid : Nat) : Option Nat :=
  (tbl.find? (fun p => p.1 == tid)).map (fun p => p.2)

/-- Modelled from the spec: the memory-mutator step for one decision (spec
section 4.4).  ADD inserts a fresh fact; UPDATE replaces the referenced
fact's text; DELETE removes it; NONE, and any decision with an unknown temp
id, performs no index operation.  Each performed operation is recorded as a
mutation event. -/
def applyDecision (tbl : List (Nat × Nat)) (acc : MemIndex × List MemEvent)
    (d : Decision) : MemIndex × List MemEvent :=
  match d with
  | .add t =>
    ({ entries := acc.1.entries ++ [⟨acc.1.nextId, t⟩], nextId := acc.1.nextId + 1 },
      acc.2 ++ [MemEvent.mutAdd t])
  | .update tid t =>
    match resolveTemp tbl tid with
    | none => acc
    | some f =>
      ({ acc.1 with entries := acc.1.entries.map (fun e => if e.fid == f then ⟨f, t⟩ else e) },
        acc.2 ++ [MemEvent.mutUpdate f t])
  | .delete tid =>
    match resolveTemp tbl tid with
    | none => acc
    | some f =>
      ({ acc.1 with entries := acc.1.entries.filter (fun e => e.fid != f) },
        acc.2 ++ [MemEvent.mutDelete f])
  | .keep _ => acc

/-- Modelled from the spec: `CustomAsyncMemory.add` (AIBot/asyncmemory.py,
absent from the sources), the consolidation pass of spec sections 4.2-4.4:
resolve candidate neighborhoods, build the temp-id table, issue the single
reconciliation-planner model invocation over the labeled existing facts and
candidate texts (`planner` is the opaque model capability), then execute
the returned decision list against the index.  The second component is the
pass's event trace in order of occurrence. -/
def memoryAdd (nbr : String → List Nat)
    (planner : List (Nat × String) → List String → List Decision)
    (cands : List String) (idx : MemIndex) : MemIndex × List MemEvent :=
  let tbl := tempTableOf nbr cands
  let existing := labeledExisting idx tbl
  let decisions := planner existing cands
  let r := decisions.foldl (applyDecision tbl) (idx, [])
  (r.1, MemEvent.plannerCall existing cands :: r.2)

/-! ## Concrete states used by counterexamples, bug demonstrations and
witnesses -/

/-- A bot state with everything empty. -/
def blankState : BotState where
  messageHistory := fun _ => []
  lastMessageWas := fun _ => none
  timelines := fun _ => []
  watchedChannels := []
  seen := []
  botSeen := []
  botId := 0

/-- A channel-1 state for the inactivity-reset scenario: one message was
recorded in the session at activity time 0, and the same message is the
most recent entry of the channel's timeline. -/
def exC2State : BotState :=
  { blankState with
    messageHistory := fun c => if c = 1 then [HMsg.sysMsg "hello there"] else []
    lastMessageWas := fun c => if c = 1 then some 0 else none
    timelines := fun c => if c = 1 then [⟨5, 7, 1, "hello there", 0, 50⟩] else [] }

/-- A channel-1 state whose history was just trimmed to the 10-entry cap and
whose conversation is active (last activity at time 100). -/
def exC3State : BotState :=
  { blankState with
    messageHistory := fun c => if c = 1 then List.replicate 10 (HMsg.sysMsg "prior message text") else []
    lastMessageWas := fun c => if c = 1 then some 100 else none }

/-- A valid non-request message arriving on channel 1. -/
def exC3Msg : DMsg := ⟨50, 7, 1, "hello there", 0, 110⟩

/-- A scanner state with one watched channel whose only recent message
(id 5) is already in the handler's seen-turn set. -/
def exC4State : BotState :=
  { blankState with
    timelines := fun c => if c = 1 then [⟨5, 7, 1, "hello there", 0, 900⟩] else []
    watchedChannels := [1]
    seen := [5]
    botId := 99 }

/-- A fact-extraction oracle that always succeeds with an empty fact list. -/
def exC4Oracle : Nat → List PRec → Option FactResponse := fun _ _ => some ⟨[]⟩

/-- A state in which the handler's seen-turn set and the bot object's unused
`seen_messages` list both hold turn id 42. -/
def exC5State : BotState :=
  { blankState with
    timelines := fun c => if c = 1 then [⟨42, 7, 1, "hello there", 0, 900⟩] else []
    watchedChannels := [1]
    seen := [42]
    botSeen := [42] }

/-- Extraction input for the failure-isolation scenario: channel 1 and
channel 2 each contribute one message. -/
def exC7Msgs : List (Nat × List DMsg) :=
  [(1, [⟨11, 3, 1, "alpha text", 0, 10⟩]), (2, [⟨12, 4, 2, "beta text", 0, 20⟩])]

/-- The successful extraction output for channel 2. -/
def exC7Resp : FactResponse := ⟨[⟨"beta", "beta is a fact"⟩]⟩

/-- An extraction oracle that fails (raises) on channel 1 and succeeds on
channel 2. -/
def exC7Oracle : Nat → List PRec → Option FactResponse :=
  fun c _ => if c = 1 then none else some exC7Resp

/-- A watched channel-3 state whose stored history is present but empty
(as after the `!clear` command) and whose last activity (time 0) is long
past at time 1000 — an inactive conversation.  The channel timeline's
newest entry is the arriving message itself. -/
def exC10SeedState : BotState :=
  { blankState with
    lastMessageWas := fun c => if c = 3 then some 0 else none
    timelines := fun c => if c = 3 then [⟨70, 8, 3, "hello again friend", 0, 990⟩] else []
    watchedChannels := [3] }

/-- The valid non-request message just posted on channel 3. -/
def exC10SeedMsg : DMsg := ⟨70, 8, 3, "hello again friend", 0, 990⟩

/-! ## Helper lemmas -/

/-- `active_conversation` returns true exactly when the channel history is
non-empty and the last recorded activity is less than 120 seconds old. -/
theorem activeConversation_eq_true_iff (now : Int) (ch : Nat) (s : BotState) :
    activeConversation now ch s = true ↔
      s.messageHistory ch ≠ [] ∧
        ∃ t, s.lastMessageWas ch = some t ∧ now - t < 120 := by
  unfold activeConversation
  by_cases hh : s.messageHistory ch = []
  · simp [hh]
  · rw [if_neg hh]
    cases hl : s.lastMessageWas ch with
    | none => simp [hh]
    | some t => simp [hh, decide_eq_true_iff]

/-- Every event accumulated by folding `applyDecision` over a decision list
is a mutation event, provided the accumulator's events already are. -/
theorem foldl_applyDecision_mutations (tbl : List (Nat × Nat)) (ds : List Decision) :
    ∀ acc : MemIndex × List MemEvent, (∀ e ∈ acc.2, e.isMutation = true) →
      ∀ e ∈ (ds.foldl (applyDecision tbl) acc).2, e.isMutation = true := by
  induction ds with
  | nil => intro acc h e he; exact h e he
  | cons d rest ih =>
    intro acc h
    refine ih (applyDecision tbl acc d) ?_
    intro e he
    cases d with
    | add t =>
      simp only [applyDecision, List.mem_append, List.mem_singleton] at he
      rcases he with he | he
      · exact h e he
      · simp [he, MemEvent.isMutation]
    | update tid t =>
      simp only [applyDecision] at he
      cases hr : resolveTemp tbl tid with
      | none => rw [hr] at he; exact h e he
      | some f =>
        rw [hr] at he
        simp only [List.mem_append, List.mem_singleton] at he
        rcases he with he | he
        · exact h e he
        · simp [he, MemEvent.isMutation]
    | delete tid =>
      simp only [applyDecision] at he
      cases hr : resolveTemp tbl tid with
      | none => rw [hr] at he; exact h e he
      | some f =>
        rw [hr] at he
        simp only [List.mem_append, List.mem_singleton] at he
        rcases he with he | he
        · exact h e he
        · simp [he, MemEvent.isMutation]
    | keep tid => exact h e he

/-! ## Claim theorems -/

/-- C1: in every consolidation pass (`CustomAsyncMemory.add`, modelled from
the spec), the event trace begins with the single reconciliation-planner
model invocation — receiving the temp-id-labeled existing facts and the
candidate texts — and every index mutation of the pass occurs strictly
after it; in particular no index mutation precedes the ADD/UPDATE/DELETE/
NONE decision procedure. -/
theorem C1_single_planner_call_precedes_mutations (nbr : String → List Nat)
    (planner : List (Nat × String) → List String → List Decision)
    (cands : List String) (idx : MemIndex) :
    ∃ muts, (memoryAdd nbr planner cands idx).2
        = MemEvent.plannerCall (labeledExisting idx (tempTableOf nbr cands)) cands :: muts
      ∧ ∀ e ∈ muts, e.isMutation = true := by
  refine ⟨((planner (labeledExisting idx (tempTableOf nbr cands)) cands).foldl
      (applyDecision (tempTableOf nbr cands)) (idx, [])).2, rfl, ?_⟩
  exact foldl_applyDecision_mutations _ _ (idx, []) (by intro e he; cases he)

/-- C2 counterexample: a session whose last activity (time 0) is older than
the 5-minute window at time 400 still gets the entry recorded before the
reset supplied as context to the next model call, because
`get_message_history` re-seeds the emptied history from the channel's last
5 messages — refuting "no message recorded before the reset is supplied as
context to the subsequent model call". -/
theorem C2_counterexample :
    staleAt 400 1 exC2State = true ∧
    HMsg.sysMsg "hello there" ∈ exC2State.messageHistory 1 ∧
    HMsg.sysMsg "hello there" ∈ (askAgentContext 400 1 exC2State).1 := by
  decide

/-- C2 amended: on the next access after more than 5 minutes of inactivity,
the stored session history is reset to empty, and the context supplied to
the subsequent model call is exactly a fresh fetch of the channel's 5 most
recent valid messages (never the stale stored list) — though that fetch may
again contain messages recorded before the reset. -/
theorem C2_stale_reset_context_is_fresh_fetch (now : Int) (ch : Nat) (s : BotState)
    (h : staleAt now ch s = true) :
    (checkMessageHistory now ch s).messageHistory ch = [] ∧
    (askAgentContext now ch s).1 = fetchRecent s ch := by
  constructor
  · simp [checkMessageHistory, h]
  · simp [askAgentContext, checkMessageHistory, h, getMessageHistory, fetchRecent, setHistory]

/-- C2 amended witness: the amended statement evaluated at the concrete
stale session `exC2State` at time 400. -/
theorem C2_stale_reset_witness :
    staleAt 400 1 exC2State = true ∧
    ((checkMessageHistory 400 1 exC2State).messageHistory 1 = [] ∧
      (askAgentContext 400 1 exC2State).1 = fetchRecent exC2State 1) :=
  ⟨by decide, C2_stale_reset_context_is_fresh_fetch 400 1 exC2State (by decide)⟩

/-- C3 counterexample: a history already at the 10-entry cap, then a passive
append of a valid message during an active conversation, leaves the
history at 11 entries — so a sequence of appends that includes a passive
append can exceed the configured cap, refuting "the history length never
exceeds the configured cap" for arbitrary append sequences. -/
theorem C3_counterexample :
    (exC3State.messageHistory 1).length = 10 ∧
    activeConversation 150 1 exC3State = true ∧
    isValidMessage exC3Msg = true ∧
    ((onMessagePassive 150 exC3Msg exC3State).messageHistory 1).length = 11 ∧
    ¬ ((onMessagePassive 150 exC3Msg exC3State).messageHistory 1).length ≤ 10 := by
  decide

/-- C3 amended: only the request-completion append
(`add_message_to_chat_history`) trims; after it the channel history holds
exactly `min (old ++ new).length 10` entries and is a suffix of the
appended list (oldest entries discarded first).  Follow-up and passive
appends do not trim, so the cap can be exceeded between request
completions. -/
theorem C3_request_append_trims_to_cap (ch : Nat) (newMsgs : List HMsg) (s : BotState) :
    ((addMessageToChatHistory ch newMsgs s).messageHistory ch).length
        = min (s.messageHistory ch ++ newMsgs).length 10 ∧
    ((addMessageToChatHistory ch newMsgs s).messageHistory ch).IsSuffix
        (s.messageHistory ch ++ newMsgs) := by
  simp only [addMessageToChatHistory]
  by_cases hc : s.messageHistory ch ++ newMsgs ≠ [] ∧ (s.messageHistory ch ++ newMsgs).length > 10
  · rw [if_pos hc, setHistory_at]
    refine ⟨?_, List.drop_suffix _ _⟩
    rw [List.length_drop]
    omega
  · rw [if_neg hc, setHistory_at]
    refine ⟨?_, List.suffix_refl _⟩
    rcases Decidable.not_and_iff_or_not.mp hc with hne | hlen
    · have : s.messageHistory ch ++ newMsgs = [] := by
        by_contra hx; exact hne hx
      simp [this]
    · omega

/-- C4: with one watched channel whose only in-window message (id 5) is
already in the seen-turn set, the scan cycle still proceeds past the
`if not watched_msgs` guard (the dict has one key with an empty list, so it
is truthy) and `check_facts` issues one fact-extraction model call with an
empty batch; the seen set is unchanged.  The claim (and the guard's own
debug message "No new messages found") say no model call is issued, so the
code diverges from the intended behavior at this input. -/
theorem C4_scan_cycle_still_calls_model :
    ((exC4State.timelines 1).filter (eligibleMsg 1000 exC4State.seen) = []) ∧
    (addMemoriesTask 1000 exC4Oracle exC4State).1.seen = exC4State.seen ∧
    (addMemoriesTask 1000 exC4Oracle exC4State).2.1 = [(1, [])] ∧
    (addMemoriesTask 1000 exC4Oracle exC4State).2.1.length ≠ 0 := by
  decide

/-- C5: the 30-minute timer tick clears `AIBot.seen_messages` (`botSeen`), a
list nothing reads, while the seen-turn set the scanner consults
(`MemoryHandler.seen_messages`, `seen`) still holds turn id 42 afterwards:
the scanner's next pass filters exactly as before the clear, so the set the
scanner reads is not empty after a clear and its growth is not bounded. -/
theorem C5_timer_clears_wrong_list :
    (seenMessagesTimerTick exC5State).botSeen = [] ∧
    (seenMessagesTimerTick exC5State).seen = [42] ∧
    checkWatchedChannels 1000 (seenMessagesTimerTick exC5State)
        = checkWatchedChannels 1000 exC5State ∧
    checkWatchedChannels 1000 (seenMessagesTimerTick exC5State) = [(1, [])] := by
  decide

/-- C6: when the model's output is a follow-up question and the requester
never replies (timeout), `_agent_run` terminates normally and returns the
run whose output is the pending question; but the delivery step of
`ask_agent` evaluates `result.output.response`, a field `FollowUpQuestion`
does not have, so the attribute access fails (`none`) and the question is
not delivered to the requester as the final result. -/
theorem C6_timeout_returns_question_but_delivery_fails :
    agentRunLoop [⟨AgentOutput.followUp "which year", HMsg.agentMsg "which year"⟩] [none] []
        = some (⟨AgentOutput.followUp "which year", HMsg.agentMsg "which year"⟩, []) ∧
    askAgentDeliver (some ⟨AgentOutput.followUp "which year", HMsg.agentMsg "which year"⟩)
        = none := by
  decide

/-- C7: in `check_facts`, a failed fact-extraction model call for one
channel group (the oracle returning `none` models the raised exception,
which is logged and swallowed) yields no output entry — hence zero
candidates — for that group, while every group whose call succeeds still
appears in the output with its extracted facts. -/
theorem C7_extraction_failure_isolated (oracle : Nat → List PRec → Option FactResponse)
    (botId : Nat) (msgs : List (Nat × List DMsg)) (g : Nat)
    (hfail : ∀ p ∈ msgs, p.1 = g → oracle g (toRecords botId p.2) = none) :
    (∀ r : FactResponse, (g, r) ∉ (checkFacts oracle botId msgs).2) ∧
    (∀ p ∈ msgs, ∀ r, oracle p.1 (toRecords botId p.2) = some r →
      (p.1, r) ∈ (checkFacts oracle botId msgs).2) := by
  constructor
  · intro r hr
    simp only [checkFacts, List.mem_filterMap, List.mem_map, Option.map_eq_some'] at hr
    rcases hr with ⟨q, ⟨p, hp, rfl⟩, r', hor, heq⟩
    have h1 : p.1 = g := congrArg Prod.fst heq
    rw [h1] at hor
    rw [hfail p hp h1] at hor
    cases hor
  · intro p hp r hor
    simp only [checkFacts, List.mem_filterMap, List.mem_map]
    exact ⟨(p.1, toRecords botId p.2), ⟨p, hp, rfl⟩, by simp [hor]⟩

/-- C7 witness: with the oracle failing on channel 1 and succeeding on
channel 2, channel 1 contributes nothing and channel 2's facts survive. -/
theorem C7_extraction_failure_isolated_witness :
    ((1, exC7Resp) ∉ (checkFacts exC7Oracle 9 exC7Msgs).2) ∧
    ((2, exC7Resp) ∈ (checkFacts exC7Oracle 9 exC7Msgs).2) := by
  have h := C7_extraction_failure_isolated exC7Oracle 9 exC7Msgs 1 (by decide)
  exact ⟨h.1 exC7Resp,
    h.2 (2, [⟨12, 4, 2, "beta text", 0, 20⟩]) (by decide) exC7Resp (by decide)⟩

/-- C8: a request loop that meets three consecutive follow-up questions,
each answered before the timeout, appends exactly 6 new entries to the
session history — the three question records (`new_messages()[0]`) and the
three user replies, in order — before any trimming happens, and then
returns the fourth (final) run. -/
theorem C8_three_followups_add_six_entries (q1 q2 q3 a reply1 reply2 reply3 : String)
    (m1 m2 m3 fm : HMsg) (hist : List HMsg) :
    agentRunLoop
        [⟨AgentOutput.followUp q1, m1⟩, ⟨AgentOutput.followUp q2, m2⟩,
          ⟨AgentOutput.followUp q3, m3⟩, ⟨AgentOutput.basic a, fm⟩]
        [some reply1, some reply2, some reply3] hist
      = some (⟨AgentOutput.basic a, fm⟩,
          hist ++ [m1, HMsg.userMsg reply1, m2, HMsg.userMsg reply2, m3, HMsg.userMsg reply3]) ∧
    (hist ++ [m1, HMsg.userMsg reply1, m2, HMsg.userMsg reply2,
        m3, HMsg.userMsg reply3]).length = hist.length + 6 := by
  constructor
  · simp [agentRunLoop]
  · simp

/-- C9: while the loop waits for a follow-up reply, the accepted message is
the next one authored by the original requester — the check predicate looks
only at the author, so the reply may arrive in any channel, and messages
from every other author are skipped. -/
theorem C9_wait_accepts_next_requester_message (requesterId : Nat) (pre : List DMsg)
    (m : DMsg) (post : List DMsg)
    (hpre : ∀ x ∈ pre, x.authorId ≠ requesterId)
    (hm : m.authorId = requesterId) :
    waitForMessage requesterId (pre ++ m :: post) = some m := by
  induction pre with
  | nil =>
    simp [waitForMessage, List.find?, followUpCheck, hm]
  | cons x rest ih =>
    have hx : (x.authorId == requesterId) = false :=
      beq_eq_false_iff_ne.mpr (hpre x (List.mem_cons_self x rest))
    simp only [waitForMessage, List.cons_append, List.find?, followUpCheck, hx]
    exact ih (fun y hy => hpre y (List.mem_cons_of_mem x hy))

/-- C9 witness: requester 7 asked in channel 1; a message from author 3 is
ignored and the next message by author 7 — posted in channel 99 — is the
one accepted as the reply. -/
theorem C9_wait_accepts_next_requester_message_witness :
    waitForMessage 7 ([⟨1, 3, 1, "hi there", 0, 0⟩] ++ ⟨2, 7, 99, "my reply", 0, 5⟩ :: [])
      = some ⟨2, 7, 99, "my reply", 0, 5⟩ :=
  C9_wait_accepts_next_requester_message 7 [⟨1, 3, 1, "hi there", 0, 0⟩]
    ⟨2, 7, 99, "my reply", 0, 5⟩ [] (by decide) (by decide)

/-- Helper for C10: the passive-append tail (bot.py:166-168) alone changes
the channel's history only when the stored history is non-empty and the
last recorded activity is less than 2 minutes (120 seconds) old. -/
theorem onMessagePassive_changes_requires_active (now : Int) (m : DMsg)
    (s : BotState)
    (hrec : (onMessagePassive now m s).messageHistory m.channelId
      ≠ s.messageHistory m.channelId) :
    s.messageHistory m.channelId ≠ [] ∧
    s.lastMessageWas m.channelId ≠ none ∧
    now - (s.lastMessageWas m.channelId).getD 0 < 120 := by
  by_cases hc : (activeConversation now m.channelId s && isValidMessage m) = true
  · have hact : activeConversation now m.channelId s = true := by
      simp only [Bool.and_eq_true] at hc
      exact hc.1
    rcases (activeConversation_eq_true_iff now m.channelId s).mp hact with ⟨hne, t, hl, ht⟩
    exact ⟨hne, by simp [hl], by simp [hl, ht]⟩
  · have hid : onMessagePassive now m s = s := by
      unfold onMessagePassive
      rw [if_neg hc]
    rw [hid] at hrec
    exact absurd rfl hrec

/-- C10 counterexample: on channel 3 the stored history is present but
empty and the conversation inactive, yet when the 5% random-event branch
fires for the arriving valid non-request message, `get_message_history`
seeds the session history from the channel's last 5 messages — recording
that very message — refuting "otherwise the message is not recorded in the
session history". -/
theorem C10_counterexample :
    activeConversation 1000 3 exC10SeedState = false ∧
    exC10SeedState.messageHistory 3 = [] ∧
    isValidMessage exC10SeedMsg = true ∧
    HMsg.sysMsg "hello again friend"
      ∈ (onMessageNonRequest 1000 true exC10SeedMsg exC10SeedState).messageHistory 3 := by
  decide

/-- C10 amended: a non-request message changes its channel's session
history only when either (a) the passive-append conditions hold — the
stored history is already non-empty and the last recorded activity is less
than 2 minutes old — or (b) the 5% random-event branch fires in a watched
channel whose stored history is empty, in which case `get_message_history`
seeds the history from the channel's recent messages (possibly recording
the arriving message itself) even though the conversation is inactive. -/
theorem C10_nonrequest_recorded_only_active_or_seeded (now : Int)
    (randomFires : Bool) (m : DMsg) (s : BotState)
    (hrec : (onMessageNonRequest now randomFires m s).messageHistory m.channelId
      ≠ s.messageHistory m.channelId) :
    (s.messageHistory m.channelId ≠ [] ∧
      s.lastMessageWas m.channelId ≠ none ∧
      now - (s.lastMessageWas m.channelId).getD 0 < 120) ∨
    (randomFires = true ∧ s.watchedChannels.contains m.channelId = true ∧
      s.messageHistory m.channelId = []) := by
  cases hR : randomFires with
  | false =>
    rw [hR] at hrec
    simp only [onMessageNonRequest, Bool.false_eq_true, if_false] at hrec
    exact Or.inl (onMessagePassive_changes_requires_active now m s hrec)
  | true =>
    rw [hR] at hrec
    by_cases hw : s.watchedChannels.contains m.channelId = true
    · by_cases hh : s.messageHistory m.channelId = []
      · exact Or.inr ⟨rfl, hw, hh⟩
      · have hw' : m.channelId ∈ s.watchedChannels := by simpa using hw
        have hid : onMessageNonRequest now true m s = onMessagePassive now m s := by
          simp [onMessageNonRequest, hw', hh]
        rw [hid] at hrec
        exact Or.inl (onMessagePassive_changes_requires_active now m s hrec)
    · have hw' : m.channelId ∉ s.watchedChannels := by simpa using hw
      have hid : onMessageNonRequest now true m s = s := by
        simp [onMessageNonRequest, hw']
      rw [hid] at hrec
      exact absurd rfl hrec

/-- C10 amended witness: the amended statement applied at the seeding
scenario — the history changes (the hypothesis holds) and the second
disjunct is what explains it. -/
theorem C10_nonrequest_recorded_witness :
    (exC10SeedState.messageHistory exC10SeedMsg.channelId ≠ [] ∧
      exC10SeedState.lastMessageWas exC10SeedMsg.channelId ≠ none ∧
      (1000 : Int) - (exC10SeedState.lastMessageWas exC10SeedMsg.channelId).getD 0 < 120) ∨
    (true = true ∧ exC10SeedState.watchedChannels.contains exC10SeedMsg.channelId = true ∧
      exC10SeedState.messageHistory exC10SeedMsg.channelId = []) :=
  C10_nonrequest_recorded_only_active_or_seeded 1000 true exC10SeedMsg exC10SeedState
    (by decide)

end AIBot
